import Mathlib

/-!
Shallow embedding of the stop-comparison engine of
`stop_comparison_analyzer.py` (Chasing Your Tail NG).

Modelling conventions:
* Python floats are modelled as `ℚ` where the code only does field
  arithmetic and comparisons (threat scoring, coordinate parsing) and as
  `ℝ` where trigonometry is involved (haversine distance).
* Python `dict`s are modelled as association lists with unique keys:
  lookup takes the first matching entry, insertion of a fresh key appends
  at the end (Python dicts preserve insertion order), update rewrites the
  first matching entry in place.
* Python `set`s of strings are modelled as `Finset String`.
* `datetime` values are modelled as a calendar date (an integer day
  number, the result of `.date()`) paired with a time-of-day; the
  analyzer only ever compares datetimes and extracts `.date()`.
* The module-level `OUI_DATABASE` table and `COMMON_PUBLIC_SSIDS` set are
  passed as explicit parameters (`db`, `common`): the spec treats both as
  external lookup services and no claim depends on their concrete
  contents.
-/

/-- Python `dict` lookup `d[k]` / `k in d`: first entry with the key. -/
def dictFind {β : Type} (d : List (String × β)) (k : String) : Option β :=
  (d.find? (fun p => p.1 == k)).map (·.2)

/-- Python `d[k] = f (d[k])` for a present key: rewrite the first entry in place. -/
def dictModify {β : Type} : List (String × β) → String → (β → β) → List (String × β)
  | [], _, _ => []
  | p :: rest, k, f => if p.1 == k then (p.1, f p.2) :: rest else p :: dictModify rest k f

/-- Python `d[k] = v`: overwrite if present, else append a new entry. -/
def dictSet {β : Type} (d : List (String × β)) (k : String) (v : β) : List (String × β) :=
  if (dictFind d k).isSome then dictModify d k (fun _ => v) else d ++ [(k, v)]

/-- A `datetime` instant: calendar date (`.date()`) plus time of day. -/
structure Datetime where
  date : Int
  tod : Int
  deriving DecidableEq

/-- Python `datetime` comparison (dates compare first, then time of day). -/
def Datetime.lt (a b : Datetime) : Prop :=
  a.date < b.date ∨ (a.date = b.date ∧ a.tod < b.tod)

instance : DecidablePred (fun p : Datetime × Datetime => Datetime.lt p.1 p.2) := by
  intro p; unfold Datetime.lt; infer_instance

instance (a b : Datetime) : Decidable (Datetime.lt a b) := by
  unfold Datetime.lt; infer_instance

/-- `@dataclass Stop`: a predetermined location stop. -/
structure Stop where
  name : String
  latitude : ℝ
  longitude : ℝ
  description : String := ""

/-- `@dataclass WirelessDevice`: a wireless device or signal
(the registry's DeviceRecord).  Field defaults match the dataclass. -/
structure WirelessDevice where
  identifier : String
  identifier_type : String      -- 'BSSID', 'SSID', or 'PROBE'
  first_seen : Option Datetime := none
  last_seen : Option Datetime := none
  signal_strength : Option Int := none
  stops_seen : Finset String := ∅
  timestamps_by_stop : List (String × List Datetime) := []
  signal_by_stop : List (String × Int) := []
  manufacturer : String := ""
  threat_score : ℚ := 0
  deriving DecidableEq

instance : Inhabited WirelessDevice :=
  ⟨{ identifier := "", identifier_type := "" }⟩

/-- The registry key `f"{identifier_type}:{identifier}"`
(`f"BSSID:{mac}"`, `f"SSID:{adv_ssid}"`, `f"PROBE:{probed_ssid}"`). -/
def deviceKey (identifier_type identifier : String) : String :=
  identifier_type ++ ":" ++ identifier

/-- The normalized OUI taken inside `lookup_manufacturer`:
`mac.upper().replace('-', ':').replace('.', ':')[:8]`. -/
def oui_of (mac : String) : String :=
  (((mac.toUpper).replace "-" ":").replace "." ":").take 8

/-- `StopComparisonAnalyzer.lookup_manufacturer`, with the module-level
`OUI_DATABASE` passed as the lookup service `db`. -/
def lookup_manufacturer (db : String → Option String) (mac : String) : String :=
  if mac = "" ∨ mac.length < 8 then "Unknown"
  else (db (oui_of mac)).getD "Unknown"

/-- `StopComparisonAnalyzer.is_common_ssid`, with `COMMON_PUBLIC_SSIDS`
passed as the list `common`: exact membership, then a case-insensitive
scan. -/
def is_common_ssid (common : List String) (ssid : String) : Bool :=
  if ssid = "" then false
  else if ssid ∈ common then true
  else common.any (fun c => c.toLower == ssid.toLower)

/-- `is_ignored`: case-insensitive MAC match for BSSID, exact match for
SSID/PROBE (`ignored_macs` is stored upper-cased at load time). -/
def is_ignored (ignoredMacs ignoredSsids : List String)
    (identifier identifier_type : String) : Bool :=
  if identifier_type = "BSSID" then identifier.toUpper ∈ ignoredMacs
  else if identifier_type = "SSID" ∨ identifier_type = "PROBE" then identifier ∈ ignoredSsids
  else false

/-- Threat factor 1 (stop coverage): `score += (num_stops / total_stops) * 0.4`
guarded by `total_stops > 0`. -/
def stopCoverageFactor (totalStops : ℕ) (d : WirelessDevice) : ℚ :=
  if 0 < totalStops then ((d.stops_seen.card : ℚ) / (totalStops : ℚ)) * 0.4 else 0

/-- Threat factor 2 (device type weight). -/
def typeWeightFactor (d : WirelessDevice) : ℚ :=
  if d.identifier_type = "BSSID" then 0.2
  else if d.identifier_type = "PROBE" then 0.15
  else if d.identifier_type = "SSID" then 0.05
  else 0

/-- Threat factor 3 (common SSID penalty): `score -= 0.3`. -/
def commonSsidPenalty (common : List String) (d : WirelessDevice) : ℚ :=
  if (d.identifier_type = "SSID" ∨ d.identifier_type = "PROBE")
      ∧ is_common_ssid common d.identifier then -0.3 else 0

/-- Threat factor 4 (signal strength ladder over the mean of
`signal_by_stop.values()`), 0 when the map is empty. -/
def signalFactor (d : WirelessDevice) : ℚ :=
  if d.signal_by_stop.isEmpty then 0
  else
    let avg : ℚ := ((d.signal_by_stop.map (·.2)).sum : ℚ) / (d.signal_by_stop.length : ℚ)
    if -50 < avg then 0.2
    else if -65 < avg then 0.15
    else if -75 < avg then 0.1
    else 0.05

/-- Threat factor 5 (unknown manufacturer bonus for BSSIDs). -/
def unknownVendorBonus (d : WirelessDevice) : ℚ :=
  if d.identifier_type = "BSSID" ∧ d.manufacturer = "Unknown" then 0.1 else 0

/-- The set `all_dates` of factor 6: every `.date()` over all recorded
timestamps across all stops (every modelled timestamp is a `datetime`,
so the `isinstance` filter keeps everything). -/
def allDates (d : WirelessDevice) : Finset Int :=
  (((d.timestamps_by_stop.map (·.2)).flatten).map Datetime.date).toFinset

/-- Threat factor 6 (same-day correlation): guarded first by
`len(device.timestamps_by_stop) >= 2` (the number of map KEYS), then by
`len(all_dates) <= 2 and num_stops >= 2`. -/
def sameDayFactor (d : WirelessDevice) : ℚ :=
  if 2 ≤ d.timestamps_by_stop.length then
    if (allDates d).card ≤ 2 ∧ 2 ≤ d.stops_seen.card then 0.1 else 0
  else 0

/-- `StopComparisonAnalyzer.calculate_threat_score`: the sum of the six
sequential `score +=` blocks, clamped by `max(0.0, min(1.0, score))`.
`totalStops` is `len(self.stops)`. -/
def calculate_threat_score (totalStops : ℕ) (common : List String)
    (d : WirelessDevice) : ℚ :=
  let score := stopCoverageFactor totalStops d + typeWeightFactor d
      + commonSsidPenalty common d + signalFactor d
      + unknownVendorBonus d + sameDayFactor d
  max 0 (min 1 score)

/-- Python truthiness of the Kismet `strongest_signal` column:
`if signal:` is taken only when the value is present and nonzero. -/
def signalTruthy : Option Int → Bool
  | none => false
  | some v => v != 0

/-- `dev.stops_seen.add(stop.name)`. -/
def mergeStops (dev : WirelessDevice) (stopName : String) : WirelessDevice :=
  { dev with stops_seen := insert stopName dev.stops_seen }

/-- The `if signal:` block of `analyze_kismet_database`: keep the
strongest per-stop signal, unconditionally overwrite the scalar
`signal_strength` (last-write-wins). -/
def mergeSignal (dev : WirelessDevice) (stopName : String) (signal : Option Int) :
    WirelessDevice :=
  if signalTruthy signal then
    let v := signal.getD 0
    let dev :=
      if (dictFind dev.signal_by_stop stopName).isNone
          ∨ (∃ prev, dictFind dev.signal_by_stop stopName = some prev ∧ prev < v) then
        { dev with signal_by_stop := dictSet dev.signal_by_stop stopName v }
      else dev
    { dev with signal_strength := some v }
  else dev

instance (d : List (String × Int)) (k : String) (v : Int) :
    Decidable ((dictFind d k).isNone
      ∨ (∃ prev, dictFind d k = some prev ∧ prev < v)) := by
  rcases h : dictFind d k with _ | p
  · exact isTrue (Or.inl rfl)
  · rcases Int.decLt p v with hlt | hlt
    · exact isFalse (by
        rintro (hn | ⟨prev, hp, hpl⟩)
        · simp at hn
        · cases Option.some.inj hp; exact hlt hpl)
    · exact isTrue (Or.inr ⟨p, rfl, hlt⟩)

/-- The `Track timestamps by stop` block: ensure the key exists (an
EMPTY list is created even when no timestamp is present), then append
`first_dt` if present and `last_dt` if present and different. -/
def mergeTimestamps (dev : WirelessDevice) (stopName : String)
    (first_dt last_dt : Option Datetime) : WirelessDevice :=
  let dev :=
    if (dictFind dev.timestamps_by_stop stopName).isNone then
      { dev with timestamps_by_stop := dev.timestamps_by_stop ++ [(stopName, [])] }
    else dev
  let dev :=
    match first_dt with
    | some t =>
        { dev with timestamps_by_stop := dictModify dev.timestamps_by_stop stopName (· ++ [t]) }
    | none => dev
  match last_dt with
  | some t =>
      if some t ≠ first_dt then
        { dev with timestamps_by_stop := dictModify dev.timestamps_by_stop stopName (· ++ [t]) }
      else dev
  | none => dev

/-- The `Update first/last seen` block (running min/max of datetimes). -/
def mergeSeenBounds (dev : WirelessDevice) (first_dt last_dt : Option Datetime) :
    WirelessDevice :=
  let dev :=
    match first_dt with
    | some t =>
        if dev.first_seen = none ∨ (∃ f, dev.first_seen = some f ∧ Datetime.lt t f) then
          { dev with first_seen := some t }
        else dev
    | none => dev
  match last_dt with
  | some t =>
      if dev.last_seen = none ∨ (∃ l, dev.last_seen = some l ∧ Datetime.lt l t) then
        { dev with last_seen := some t }
      else dev
  | none => dev

instance (o : Option Datetime) (P : Datetime → Prop) [DecidablePred P] :
    Decidable (o = none ∨ (∃ f, o = some f ∧ P f)) := by
  rcases h : o with _ | f
  · exact isTrue (Or.inl rfl)
  · rcases ‹DecidablePred P› f with hp | hp
    · exact isFalse (by
        rintro (hn | ⟨g, hg, hgp⟩)
        · simp at hn
        · cases hg; exact hp hgp)
    · exact isTrue (Or.inr ⟨f, rfl, hp⟩)

/-- The whole per-row mutation of an existing (or fresh) BSSID record in
`analyze_kismet_database` (lines after the creation check). -/
def mergeKismet (dev : WirelessDevice) (stopName : String) (signal : Option Int)
    (first_dt last_dt : Option Datetime) : WirelessDevice :=
  mergeSeenBounds
    (mergeTimestamps (mergeSignal (mergeStops dev stopName) stopName signal)
      stopName first_dt last_dt)
    first_dt last_dt

/-- The fresh record `WirelessDevice(identifier=mac,
identifier_type='BSSID', manufacturer=self.lookup_manufacturer(mac))`
built by the Kismet source. -/
def kismetNewDevice (db : String → Option String) (mac : String) : WirelessDevice :=
  { identifier := mac, identifier_type := "BSSID",
    manufacturer := lookup_manufacturer db mac }

/-- The `Track BSSID` registry step of `analyze_kismet_database`:
create-if-absent under key `f"BSSID:{mac}"`, then merge the row into the
record. -/
def kismetTrackBssid (db : String → Option String)
    (devices : List (String × WirelessDevice)) (mac stopName : String)
    (signal : Option Int) (first_dt last_dt : Option Datetime) :
    List (String × WirelessDevice) :=
  let key := deviceKey "BSSID" mac
  let devices :=
    if (dictFind devices key).isNone then devices ++ [(key, kismetNewDevice db mac)]
    else devices
  dictModify devices key (fun dev => mergeKismet dev stopName signal first_dt last_dt)

/-- The record stored under `key`, with the (never-consulted) default
used only to avoid option plumbing in statements. -/
def recordAt (devices : List (String × WirelessDevice)) (key : String) : WirelessDevice :=
  (dictFind devices key).getD default

/-- The analyzer's mutable collections: the three per-stop identifier
sets (`defaultdict(set)`) and the device registry (`self.devices`). -/
structure AnalyzerState where
  bssids_by_stop : List (String × Finset String) := []
  ssids_by_stop : List (String × Finset String) := []
  probes_by_stop : List (String × Finset String) := []
  devices : List (String × WirelessDevice) := []

/-- `self.xxx_by_stop[stop].add(v)` on a `defaultdict(set)`. -/
def byStopAdd (m : List (String × Finset String)) (stopName v : String) :
    List (String × Finset String) :=
  if (dictFind m stopName).isNone then m ++ [(stopName, {v})]
  else dictModify m stopName (insert v)

/-- `WirelessDevice(identifier=..., identifier_type=...)` as created by
`analyze_cyt_logs` and `add_manual_observation`: note that NO
`manufacturer` argument is passed, so the dataclass default `""` is
kept. -/
def bareNewDevice (identifier identifier_type : String) : WirelessDevice :=
  { identifier := identifier, identifier_type := identifier_type }

/-- `StopComparisonAnalyzer.add_manual_observation` (returns the Python
`bool` result together with the new state). -/
def add_manual_observation (stops : List Stop) (st : AnalyzerState)
    (identifier identifier_type stop_name : String) : Bool × AnalyzerState :=
  if stop_name ∉ stops.map (·.name) then (false, st)
  else if identifier_type = "BSSID" then
    go { st with bssids_by_stop := byStopAdd st.bssids_by_stop stop_name identifier }
  else if identifier_type = "SSID" then
    go { st with ssids_by_stop := byStopAdd st.ssids_by_stop stop_name identifier }
  else if identifier_type = "PROBE" then
    go { st with probes_by_stop := byStopAdd st.probes_by_stop stop_name identifier }
  else (false, st)
where
  go (st : AnalyzerState) : Bool × AnalyzerState :=
    let key := deviceKey identifier_type identifier
    let st :=
      if (dictFind st.devices key).isNone then
        { st with devices := st.devices ++ [(key, bareNewDevice identifier identifier_type)] }
      else st
    (true, { st with
      devices := dictModify st.devices key
        (fun d => { d with stops_seen := insert stop_name d.stops_seen }) })

/-- Character class `[0-9A-Fa-f]` of the MAC regex. -/
def isHexChar (c : Char) : Bool :=
  ('0' ≤ c && c ≤ '9') || ('A' ≤ c && c ≤ 'F') || ('a' ≤ c && c ≤ 'f')

/-- Character class `[:-]` of the MAC regex. -/
def isMacSep (c : Char) : Bool := c == ':' || c == '-'

/-- One attempted match of `([0-9A-Fa-f]{2}[:-]){5}([0-9A-Fa-f]{2})` at
the head of the list.  The pattern is 17 characters; on success the two
captured groups are returned: group 1 holds only the LAST repetition of
`([0-9A-Fa-f]{2}[:-])` (Python regex capture semantics) and group 2 the
final byte pair. -/
def macMatchAt : List Char → Option (List Char × List Char)
  | a :: b :: s1 :: c :: d :: s2 :: e :: f :: s3 :: g :: h :: s4 :: i :: j :: s5 :: k :: m :: _ =>
    if isHexChar a && isHexChar b && isMacSep s1 && isHexChar c && isHexChar d && isMacSep s2
        && isHexChar e && isHexChar f && isMacSep s3 && isHexChar g && isHexChar h && isMacSep s4
        && isHexChar i && isHexChar j && isMacSep s5 && isHexChar k && isHexChar m then
      some ([i, j, s5], [k, m])
    else none
  | _ => none

/-- Scanning loop of `mac_pattern.findall`, structurally recursive on a
fuel argument (one unit per character position; a successful match
consumes 17 characters, so `l.length` fuel always suffices). -/
def macFindallGo : ℕ → List Char → List (List Char × List Char)
  | 0, _ => []
  | _ + 1, [] => []
  | fuel + 1, c :: rest =>
    match macMatchAt (c :: rest) with
    | some gs => gs :: macFindallGo fuel ((c :: rest).drop 17)
    | none => macFindallGo fuel rest

/-- `mac_pattern.findall(line)`: left-to-right non-overlapping scan; on a
match the scan resumes after the 17 matched characters. -/
def macFindall (l : List Char) : List (List Char × List Char) :=
  macFindallGo l.length l

/-- `':'.join(mac_tuple).upper()`. -/
def joinUpper (g : List Char × List Char) : String :=
  ⟨(g.1 ++ [':'] ++ g.2).map Char.toUpper⟩

/-- Python `\s` (ASCII) for the `[,\s]+` separator class. -/
def isCommaSpace (c : Char) : Bool :=
  c == ',' || c == ' ' || c == '\t' || c == '\n' || c == '\r'
    || c == Char.ofNat 11 || c == Char.ofNat 12

/-- A number token matched by `[+-]?\d+\.?\d*`: sign flag, integer
digits, fractional digits. -/
abbrev NumTok := Bool × List Char × List Char

/-- Greedy match of `[+-]?\d+\.?\d*` at the head of the list.  For this
pattern (digit runs ended by a non-digit, optional single dot) maximal
munch agrees with Python's backtracking semantics, because no proper
prefix of the maximal munch can be followed by a `[,\s]` character. -/
def numMatchAt (l : List Char) : Option (NumTok × List Char) :=
  let (sgn, l1) : Option Char × List Char :=
    match l with
    | c :: rest => if c == '+' || c == '-' then (some c, rest) else (none, l)
    | [] => (none, l)
  let (ds, l2) := l1.span Char.isDigit
  if ds.isEmpty then none
  else
    match l2 with
    | '.' :: l3 =>
      let (fs, l4) := l3.span Char.isDigit
      some ((sgn == some '-', ds, fs), l4)
    | _ => some ((sgn == some '-', ds, []), l2)

/-- Greedy match of `[,\s]+`. -/
def sepMatchAt (l : List Char) : Option (List Char) :=
  let (seps, rest) := l.span isCommaSpace
  if seps.isEmpty then none else some rest

/-- One attempted match of the full coordinate pattern
`([+-]?\d+\.?\d*)[,\s]+([+-]?\d+\.?\d*)` at the head of the list. -/
def coordMatchAt (l : List Char) : Option (NumTok × NumTok) :=
  match numMatchAt l with
  | none => none
  | some (t1, r1) =>
    match sepMatchAt r1 with
    | none => none
    | some r2 =>
      match numMatchAt r2 with
      | none => none
      | some (t2, _) => some (t1, t2)

/-- `re.search` of the coordinate pattern: first position where a match
starts. -/
def coordSearch : List Char → Option (NumTok × NumTok)
  | [] => none
  | c :: rest =>
    match coordMatchAt (c :: rest) with
    | some p => some p
    | none => coordSearch rest

/-- Python substring test `pat in l` over character lists. -/
def hasSubstr (pat : List Char) : List Char → Bool
  | [] => pat.isEmpty
  | c :: rest => pat.isPrefixOf (c :: rest) || hasSubstr pat rest

/-- `'GPS' in line or 'lat' in line.lower()`. -/
def containsGpsKeyword (line : List Char) : Bool :=
  hasSubstr "GPS".data line || hasSubstr "lat".data (line.map Char.toLower)

/-- The exact rational value of `float()` applied to a matched number
token. -/
def digitsToNat (ds : List Char) : ℕ :=
  ds.foldl (fun acc c => 10 * acc + (c.toNat - '0'.toNat)) 0

/-- `float(gps_match.group(i))` on a token of the coordinate pattern
(such strings are always valid Python floats, so no `ValueError`). -/
def numTokVal (t : NumTok) : ℚ :=
  (if t.1 then -1 else 1)
    * ((digitsToNat t.2.1 : ℚ) + (digitsToNat t.2.2 : ℚ) / 10 ^ t.2.2.length)

/-- The per-MAC body of the inner loop of `analyze_cyt_logs`: form
`mac = ':'.join(mac_tuple).upper()`, add it to `bssids_by_stop`, create
the device record if absent (without manufacturer), add the stop. -/
def logTrackMac (st : AnalyzerState) (stopName : String)
    (g : List Char × List Char) : AnalyzerState :=
  let mac := joinUpper g
  let st := { st with bssids_by_stop := byStopAdd st.bssids_by_stop stopName mac }
  let key := deviceKey "BSSID" mac
  let st :=
    if (dictFind st.devices key).isNone then
      { st with devices := st.devices ++ [(key, bareNewDevice mac "BSSID")] }
    else st
  { st with
    devices := dictModify st.devices key
      (fun d => { d with stops_seen := insert stopName d.stops_seen }) }

/-- Raw JSON stop entry as far as `_parse_stop_config` looks at it.  For
the two coordinates, `none` models a missing key (`KeyError`),
`some none` a value on which `float()` raises `ValueError`, and
`some (some q)` a value converting to the float `q`. -/
structure StopData where
  name : Option String
  latitude : Option (Option ℚ)
  longitude : Option (Option ℚ)
  description : Option String

/-- The `try: Stop(...) except (KeyError, ValueError)` body: the entry
is kept iff the name key exists and both coordinates convert; no range
check of any kind is performed. -/
noncomputable def parseStopEntry (sd : StopData) : Option Stop :=
  match sd.name, sd.latitude, sd.longitude with
  | some n, some (some la), some (some lo) =>
    some { name := n, latitude := (la : ℝ), longitude := (lo : ℝ),
           description := sd.description.getD "" }
  | _, _, _ => none

/-- The `for stop_data in stops_data` loop of `_parse_stop_config`:
each entry parsed independently, failures skipped. -/
noncomputable def parseStopLoop (l : List StopData) : List Stop :=
  l.filterMap parseStopEntry

/-- `_parse_stop_config` on the `stops` array: truncation to the first
5 entries, then the per-entry loop. -/
noncomputable def parse_stops (l : List StopData) : List Stop :=
  parseStopLoop (if 5 < l.length then l.take 5 else l)

/-- `math.radians`. -/
noncomputable def radians (x : ℝ) : ℝ := x * Real.pi / 180

/-- `math.atan2` (standard two-argument arctangent). -/
noncomputable def atan2 (y x : ℝ) : ℝ :=
  if 0 < x then Real.arctan (y / x)
  else if x < 0 then
    (if 0 ≤ y then Real.arctan (y / x) + Real.pi else Real.arctan (y / x) - Real.pi)
  else (if 0 < y then Real.pi / 2 else if y < 0 then -(Real.pi / 2) else 0)

/-- `StopComparisonAnalyzer.haversine_distance` (meters, Earth radius
6,371,000 m).  Trigonometry is modelled over exact reals; where a
statement depends on IEEE double rounding (for instance
`cos(radians(90))` is the double `6.12e-17`, not the exact 0, so
distinct longitudes at latitude 90 compute a small positive distance),
the corresponding floating-point fact is carried as an explicit
hypothesis of the theorem that needs it instead of being derived here. -/
noncomputable def haversine_distance (lat1 lon1 lat2 lon2 : ℝ) : ℝ :=
  let R : ℝ := 6371000
  let lat1r := radians lat1
  let lon1r := radians lon1
  let lat2r := radians lat2
  let lon2r := radians lon2
  let dlat := lat2r - lat1r
  let dlon := lon2r - lon1r
  let a := Real.sin (dlat / 2) ^ 2
      + Real.cos lat1r * Real.cos lat2r * Real.sin (dlon / 2) ^ 2
  let c := 2 * atan2 (Real.sqrt a) (Real.sqrt (1 - a))
  R * c

/-- The running-minimum comparison `distance <= radius and distance <
min_distance`; `none` models the initial `min_distance = float('inf')`,
against which every real distance compares strictly less. -/
def betterThan (d : ℝ) (best : Option (Stop × ℝ)) : Prop :=
  match best with
  | none => True
  | some p => d < p.2

open scoped Classical in
/-- The `for stop in self.stops` loop of `find_nearest_stop`, threading
`(nearest_stop, min_distance)`. -/
noncomputable def findNearestAux (latitude longitude radius : ℝ) :
    List Stop → Option (Stop × ℝ) → Option (Stop × ℝ)
  | [], best => best
  | s :: rest, best =>
    let d := haversine_distance latitude longitude s.latitude s.longitude
    if d ≤ radius ∧ betterThan d best then
      findNearestAux latitude longitude radius rest (some (s, d))
    else
      findNearestAux latitude longitude radius rest best

/-- `StopComparisonAnalyzer.find_nearest_stop`. -/
noncomputable def find_nearest_stop (stops : List Stop)
    (latitude longitude radius : ℝ) : Option Stop :=
  (findNearestAux latitude longitude radius stops none).map Prod.fst

open scoped Classical in
/-- The per-line body of `analyze_cyt_logs`: collect MAC tokens, gate on
the GPS keyword, search for a coordinate pair, require both, convert
and range-check the coordinates, resolve the nearest stop, then track
each MAC token (the second component counts the `count += 1` steps). -/
noncomputable def processLogLine (stops : List Stop) (radius : ℝ)
    (st : AnalyzerState) (line : List Char) : AnalyzerState × ℕ :=
  let macs := macFindall line
  if containsGpsKeyword line then
    match coordSearch line with
    | some (t1, t2) =>
      if macs.isEmpty then (st, 0)
      else
        let lat := numTokVal t1
        let lon := numTokVal t2
        if -90 ≤ lat ∧ lat ≤ 90 ∧ -180 ≤ lon ∧ lon ≤ 180 then
          match find_nearest_stop stops (lat : ℝ) (lon : ℝ) radius with
          | some stop =>
            macs.foldl (fun acc g => (logTrackMac acc.1 stop.name g, acc.2 + 1)) (st, 0)
          | none => (st, 0)
        else (st, 0)
    | none => (st, 0)
  else (st, 0)

/-- The Python sort key `(d.threat_score, len(d.stops_seen))`. -/
def sortKey (d : WirelessDevice) : ℚ × ℕ := (d.threat_score, d.stops_seen.card)

/-- Lexicographic order on sort keys (the tuple order Python uses). -/
def keyLe (a b : ℚ × ℕ) : Prop := a.1 < b.1 ∨ (a.1 = b.1 ∧ a.2 ≤ b.2)

instance (a b : ℚ × ℕ) : Decidable (keyLe a b) := by
  unfold keyLe; infer_instance

/-- Stable descending insertion: `x` (which comes LATER in the input
than everything in the list) is placed before the first element with a
strictly smaller key, hence after all elements with an equal key. -/
def insertDesc (x : WirelessDevice) : List WirelessDevice → List WirelessDevice
  | [] => [x]
  | y :: ys => if keyLe (sortKey y) (sortKey x) then x :: y :: ys else y :: insertDesc x ys

/-- `results[key].sort(key=lambda d: (d.threat_score, len(d.stops_seen)),
reverse=True)`: Python's stable descending sort.  A stable sort by a
total preorder is extensionally unique, so this insertion sort models
Timsort exactly. -/
def sortDesc : List WirelessDevice → List WirelessDevice
  | [] => []
  | x :: xs => insertDesc x (sortDesc xs)

/-- The filter/score/group loop of `find_multi_stop_devices`, iterating
the registry in insertion order and producing the three pre-sort groups
`(bssids, ssids, probes)` in that order. -/
def collectGroups (totalStops : ℕ) (common ignoredMacs ignoredSsids : List String)
    (minOcc : ℕ) :
    List (String × WirelessDevice) →
      List WirelessDevice × List WirelessDevice × List WirelessDevice
  | [] => ([], [], [])
  | (_, d) :: rest =>
    let r := collectGroups totalStops common ignoredMacs ignoredSsids minOcc rest
    if is_ignored ignoredMacs ignoredSsids d.identifier d.identifier_type then r
    else if minOcc ≤ d.stops_seen.card then
      let d' := { d with threat_score := calculate_threat_score totalStops common d }
      if d.identifier_type = "BSSID" then (d' :: r.1, r.2.1, r.2.2)
      else if d.identifier_type = "SSID" then (r.1, d' :: r.2.1, r.2.2)
      else if d.identifier_type = "PROBE" then (r.1, r.2.1, d' :: r.2.2)
      else r
    else r

/-- `StopComparisonAnalyzer.find_multi_stop_devices`: collect the three
groups, then sort each one descending by `(threat_score, |stops_seen|)`
with a stable sort. -/
def find_multi_stop_devices (totalStops : ℕ)
    (common ignoredMacs ignoredSsids : List String) (minOcc : ℕ)
    (devices : List (String × WirelessDevice)) :
    List WirelessDevice × List WirelessDevice × List WirelessDevice :=
  let r := collectGroups totalStops common ignoredMacs ignoredSsids minOcc devices
  (sortDesc r.1, sortDesc r.2.1, sortDesc r.2.2)

/-- The current timestamp list of a device at a stop (empty when the
map has no entry). -/
def tsAt (d : WirelessDevice) (s : String) : List Datetime :=
  (dictFind d.timestamps_by_stop s).getD []

/-- What one Kismet row appends to the stop's timestamp list:
`first_dt` if present, then `last_dt` if present and different. -/
def tsAppended (t1 t2 : Option Datetime) : List Datetime :=
  (match t1 with | some t => [t] | none => [])
    ++ (match t2 with | some t => if some t ≠ t1 then [t] else [] | none => [])

/-- The same-day condition as the SPEC words it (used only to compare
the specification against the code): recorded timestamps exist for at
least 2 distinct stops, the derived date set has cardinality at most 2,
and at least 2 stops were seen. -/
def specSameDayCondition (d : WirelessDevice) : Prop :=
  2 ≤ (d.timestamps_by_stop.filter (fun p => !p.2.isEmpty)).length
    ∧ (allDates d).card ≤ 2 ∧ 2 ≤ d.stops_seen.card

/-- A stop exactly at the coordinates carried by the test log line. -/
def logStop : Stop := { name := "LogStop", latitude := 10, longitude := 20 }

/-! ### Helper lemmas about the dictionary model -/

theorem dictFind_nil {β : Type} (k : String) : dictFind ([] : List (String × β)) k = none :=
  rfl

theorem dictFind_cons {β : Type} (p : String × β) (l : List (String × β)) (k : String) :
    dictFind (p :: l) k = if p.1 = k then some p.2 else dictFind l k := by
  by_cases h : p.1 = k <;> simp [dictFind, List.find?_cons, h]

theorem dictModify_cons {β : Type} (p : String × β) (l : List (String × β)) (k : String)
    (f : β → β) :
    dictModify (p :: l) k f
      = if p.1 = k then (p.1, f p.2) :: l else p :: dictModify l k f := by
  by_cases h : p.1 = k <;> simp [dictModify, h]

theorem dictFind_append_right {β : Type} (l : List (String × β)) (k : String) (v : β)
    (h : dictFind l k = none) : dictFind (l ++ [(k, v)]) k = some v := by
  induction l with
  | nil => simp [dictFind]
  | cons p rest ih =>
    rw [dictFind_cons] at h
    by_cases hk : p.1 = k
    · rw [if_pos hk] at h; cases h
    · rw [if_neg hk] at h
      rw [List.cons_append, dictFind_cons, if_neg hk]
      exact ih h

theorem dictFind_dictModify_self {β : Type} (l : List (String × β)) (k : String)
    (f : β → β) : dictFind (dictModify l k f) k = (dictFind l k).map f := by
  induction l with
  | nil => simp [dictFind, dictModify]
  | cons p rest ih =>
    rw [dictModify_cons]
    by_cases hk : p.1 = k
    · rw [if_pos hk, dictFind_cons, dictFind_cons, if_pos hk, if_pos hk]
      rfl
    · rw [if_neg hk, dictFind_cons, dictFind_cons, if_neg hk, if_neg hk]
      exact ih

/-! ### Frame lemmas for the per-row merge steps -/

theorem mergeStops_signal_by_stop (d : WirelessDevice) (s : String) :
    (mergeStops d s).signal_by_stop = d.signal_by_stop := rfl

theorem mergeStops_signal_strength (d : WirelessDevice) (s : String) :
    (mergeStops d s).signal_strength = d.signal_strength := rfl

theorem mergeStops_timestamps (d : WirelessDevice) (s : String) :
    (mergeStops d s).timestamps_by_stop = d.timestamps_by_stop := rfl

theorem mergeStops_manufacturer (d : WirelessDevice) (s : String) :
    (mergeStops d s).manufacturer = d.manufacturer := rfl

theorem mergeSignal_stops_seen (d : WirelessDevice) (s : String) (sig : Option Int) :
    (mergeSignal d s sig).stops_seen = d.stops_seen := by
  unfold mergeSignal
  split <;> [skip; rfl]
  dsimp only
  split <;> rfl

theorem mergeSignal_timestamps (d : WirelessDevice) (s : String) (sig : Option Int) :
    (mergeSignal d s sig).timestamps_by_stop = d.timestamps_by_stop := by
  unfold mergeSignal
  split <;> [skip; rfl]
  dsimp only
  split <;> rfl

theorem mergeSignal_manufacturer (d : WirelessDevice) (s : String) (sig : Option Int) :
    (mergeSignal d s sig).manufacturer = d.manufacturer := by
  unfold mergeSignal
  split <;> [skip; rfl]
  dsimp only
  split <;> rfl

theorem mergeTimestamps_signal_by_stop (d : WirelessDevice) (s : String)
    (t1 t2 : Option Datetime) :
    (mergeTimestamps d s t1 t2).signal_by_stop = d.signal_by_stop := by
  unfold mergeTimestamps
  cases t1 <;> cases t2 <;> dsimp only <;> split <;> try split
  all_goals rfl

theorem mergeTimestamps_signal_strength (d : WirelessDevice) (s : String)
    (t1 t2 : Option Datetime) :
    (mergeTimestamps d s t1 t2).signal_strength = d.signal_strength := by
  unfold mergeTimestamps
  cases t1 <;> cases t2 <;> dsimp only <;> split <;> try split
  all_goals rfl

theorem mergeTimestamps_stops_seen (d : WirelessDevice) (s : String)
    (t1 t2 : Option Datetime) :
    (mergeTimestamps d s t1 t2).stops_seen = d.stops_seen := by
  unfold mergeTimestamps
  cases t1 <;> cases t2 <;> dsimp only <;> split <;> try split
  all_goals rfl

theorem mergeTimestamps_manufacturer (d : WirelessDevice) (s : String)
    (t1 t2 : Option Datetime) :
    (mergeTimestamps d s t1 t2).manufacturer = d.manufacturer := by
  unfold mergeTimestamps
  cases t1 <;> cases t2 <;> dsimp only <;> split <;> try split
  all_goals rfl

theorem mergeSeenBounds_signal_by_stop (d : WirelessDevice) (t1 t2 : Option Datetime) :
    (mergeSeenBounds d t1 t2).signal_by_stop = d.signal_by_stop := by
  unfold mergeSeenBounds
  cases t1 <;> cases t2 <;> dsimp only <;> split <;> try split
  all_goals rfl

theorem mergeSeenBounds_signal_strength (d : WirelessDevice) (t1 t2 : Option Datetime) :
    (mergeSeenBounds d t1 t2).signal_strength = d.signal_strength := by
  unfold mergeSeenBounds
  cases t1 <;> cases t2 <;> dsimp only <;> split <;> try split
  all_goals rfl

theorem mergeSeenBounds_stops_seen (d : WirelessDevice) (t1 t2 : Option Datetime) :
    (mergeSeenBounds d t1 t2).stops_seen = d.stops_seen := by
  unfold mergeSeenBounds
  cases t1 <;> cases t2 <;> dsimp only <;> split <;> try split
  all_goals rfl

theorem mergeSeenBounds_timestamps (d : WirelessDevice) (t1 t2 : Option Datetime) :
    (mergeSeenBounds d t1 t2).timestamps_by_stop = d.timestamps_by_stop := by
  unfold mergeSeenBounds
  cases t1 <;> cases t2 <;> dsimp only <;> split <;> try split
  all_goals rfl

theorem mergeSeenBounds_manufacturer (d : WirelessDevice) (t1 t2 : Option Datetime) :
    (mergeSeenBounds d t1 t2).manufacturer = d.manufacturer := by
  unfold mergeSeenBounds
  cases t1 <;> cases t2 <;> dsimp only <;> split <;> try split
  all_goals rfl

theorem mergeKismet_stops_seen (d : WirelessDevice) (s : String) (sig : Option Int)
    (t1 t2 : Option Datetime) :
    (mergeKismet d s sig t1 t2).stops_seen = insert s d.stops_seen := by
  unfold mergeKismet
  rw [mergeSeenBounds_stops_seen, mergeTimestamps_stops_seen, mergeSignal_stops_seen]
  rfl

theorem mergeKismet_manufacturer (d : WirelessDevice) (s : String) (sig : Option Int)
    (t1 t2 : Option Datetime) :
    (mergeKismet d s sig t1 t2).manufacturer = d.manufacturer := by
  unfold mergeKismet
  rw [mergeSeenBounds_manufacturer, mergeTimestamps_manufacturer,
    mergeSignal_manufacturer, mergeStops_manufacturer]

theorem tsAt_congr (a b : WirelessDevice) (s : String)
    (h : a.timestamps_by_stop = b.timestamps_by_stop) : tsAt a s = tsAt b s := by
  unfold tsAt; rw [h]

theorem tsAt_mergeTimestamps (d : WirelessDevice) (s : String)
    (t1 t2 : Option Datetime) :
    tsAt (mergeTimestamps d s t1 t2) s = tsAt d s ++ tsAppended t1 t2 := by
  have hbase : ∀ e : WirelessDevice, e.timestamps_by_stop
      = (if (dictFind d.timestamps_by_stop s).isNone then
          d.timestamps_by_stop ++ [(s, [])] else d.timestamps_by_stop) →
      dictFind e.timestamps_by_stop s = some (tsAt d s) := by
    intro e he
    rw [he]
    cases h : dictFind d.timestamps_by_stop s with
    | none => simp [tsAt, h, dictFind_append_right _ _ _ h]
    | some l => simp [tsAt, h]
  unfold mergeTimestamps
  cases t1 with
  | none =>
    cases t2 with
    | none =>
      dsimp only
      rw [tsAppended, List.append_nil]
      unfold tsAt
      rw [hbase _ (by split <;> rfl)]
      simp [tsAt]
    | some t =>
      dsimp only
      rw [if_pos (by simp)]
      unfold tsAt
      dsimp only
      rw [dictFind_dictModify_self, hbase _ (by split <;> rfl)]
      simp [tsAt, tsAppended]
  | some u =>
    cases t2 with
    | none =>
      dsimp only
      unfold tsAt
      dsimp only
      rw [dictFind_dictModify_self, hbase _ (by split <;> rfl)]
      simp [tsAt, tsAppended]
    | some t =>
      by_cases ht : some t ≠ some u
      · dsimp only
        rw [if_pos ht]
        unfold tsAt
        dsimp only
        rw [dictFind_dictModify_self, dictFind_dictModify_self,
          hbase _ (by split <;> rfl)]
        simp [tsAt, tsAppended, ht]
      · dsimp only
        rw [if_neg ht]
        unfold tsAt
        dsimp only
        rw [dictFind_dictModify_self, hbase _ (by split <;> rfl)]
        simp [tsAt, tsAppended, ht]

theorem tsAt_mergeKismet (d : WirelessDevice) (s : String) (sig : Option Int)
    (t1 t2 : Option Datetime) :
    tsAt (mergeKismet d s sig t1 t2) s = tsAt d s ++ tsAppended t1 t2 := by
  unfold mergeKismet
  rw [tsAt_congr _ _ _ (mergeSeenBounds_timestamps _ _ _), tsAt_mergeTimestamps]
  congr 1
  exact tsAt_congr _ _ _
    (by rw [mergeSignal_timestamps, mergeStops_timestamps])

theorem tsAppended_ne_nil (t1 t2 : Option Datetime)
    (h : t1 ≠ none ∨ t2 ≠ none) : tsAppended t1 t2 ≠ [] := by
  cases t1 with
  | some u => simp [tsAppended]
  | none =>
    cases t2 with
    | none => rcases h with h | h <;> exact absurd rfl h
    | some t => simp [tsAppended]

theorem mergeSignal_at_zero (d : WirelessDevice) (s : String) :
    mergeSignal d s (some 0) = d := by
  simp [mergeSignal, signalTruthy]

/-- The registry record under `f"BSSID:{mac}"` after one Kismet row:
the merge applied to the previous record, or to the freshly created one
when the key was absent. -/
theorem kismetTrackBssid_recordAt (db : String → Option String)
    (reg : List (String × WirelessDevice)) (mac stopName : String)
    (sig : Option Int) (t1 t2 : Option Datetime) :
    dictFind (kismetTrackBssid db reg mac stopName sig t1 t2) (deviceKey "BSSID" mac)
      = some (mergeKismet ((dictFind reg (deviceKey "BSSID" mac)).getD
          (kismetNewDevice db mac)) stopName sig t1 t2) := by
  cases h : dictFind reg (deviceKey "BSSID" mac) with
  | none =>
    show dictFind (dictModify (if (dictFind reg (deviceKey "BSSID" mac)).isNone then
        reg ++ [(deviceKey "BSSID" mac, kismetNewDevice db mac)] else reg) _ _) _ = _
    rw [h]
    rw [if_pos (show (none : Option WirelessDevice).isNone = true from rfl)]
    rw [dictFind_dictModify_self, dictFind_append_right _ _ _ h]
    rfl
  | some v =>
    show dictFind (dictModify (if (dictFind reg (deviceKey "BSSID" mac)).isNone then
        reg ++ [(deviceKey "BSSID" mac, kismetNewDevice db mac)] else reg) _ _) _ = _
    rw [h]
    rw [if_neg (by simp)]
    rw [dictFind_dictModify_self, h]
    rfl

/-! ### Claim theorems -/

/-- C1: for every DeviceRecord (any identifier type, stops seen, signal
values, timestamps, manufacturer) and every configured stop count,
including zero, `calculate_threat_score` returns a value in the closed
interval `[0, 1]` (the final `max(0.0, min(1.0, score))` clamp). -/
theorem calculate_threat_score_in_unit_interval (totalStops : ℕ)
    (common : List String) (d : WirelessDevice) :
    0 ≤ calculate_threat_score totalStops common d
      ∧ calculate_threat_score totalStops common d ≤ 1 := by
  unfold calculate_threat_score
  exact ⟨le_max_left 0 _, max_le (by norm_num) (min_le_left 1 _)⟩

/-- C2: for identifier types drawn from {BSSID, SSID, PROBE}, the
registry key `f"{identifier_type}:{identifier}"` determines both the
type and the identifier, even when the identifier contains `':'`: the
key map is injective, so distinct `(type, identifier)` pairs are never
aggregated into the same DeviceRecord. -/
theorem deviceKey_injective (t1 t2 id1 id2 : String)
    (h1 : t1 ∈ ["BSSID", "SSID", "PROBE"]) (h2 : t2 ∈ ["BSSID", "SSID", "PROBE"])
    (heq : deviceKey t1 id1 = deviceKey t2 id2) : t1 = t2 ∧ id1 = id2 := by
  have hd := congrArg String.data heq
  simp only [deviceKey, String.data_append] at hd
  simp only [List.mem_cons, List.mem_singleton, List.not_mem_nil, or_false] at h1 h2
  rcases h1 with h1 | h1 | h1 <;> rcases h2 with h2 | h2 | h2 <;> subst h1 <;> subst h2 <;>
    first
      | (refine ⟨rfl, String.ext ?_⟩
         simpa using hd)
      | simp at hd

/-- Witness for C2 at a concrete input whose identifier contains the
separator character. -/
theorem deviceKey_injective_witness : ("SSID" : String) = "SSID" ∧ ("a:b" : String) = "a:b" :=
  deviceKey_injective "SSID" "SSID" "a:b" "a:b" (by decide) (by decide) rfl

/-- C6: merging the same Kismet sighting twice leaves `stops_seen` equal
to the single-merge result (set insertion is idempotent), but when the
sighting carries a timestamp the second merge strictly grows the
timestamp list recorded for that stop (list append, not deduplicated). -/
theorem merge_twice_stops_idem_timestamps_grow (db : String → Option String)
    (reg : List (String × WirelessDevice)) (mac stopName : String)
    (sig : Option Int) (t1 t2 : Option Datetime) (h : t1 ≠ none ∨ t2 ≠ none) :
    (recordAt (kismetTrackBssid db (kismetTrackBssid db reg mac stopName sig t1 t2)
          mac stopName sig t1 t2) (deviceKey "BSSID" mac)).stops_seen
        = (recordAt (kismetTrackBssid db reg mac stopName sig t1 t2)
            (deviceKey "BSSID" mac)).stops_seen
      ∧ (tsAt (recordAt (kismetTrackBssid db reg mac stopName sig t1 t2)
            (deviceKey "BSSID" mac)) stopName).length
        < (tsAt (recordAt (kismetTrackBssid db (kismetTrackBssid db reg mac stopName sig t1 t2)
            mac stopName sig t1 t2) (deviceKey "BSSID" mac)) stopName).length := by
  have h1 := kismetTrackBssid_recordAt db reg mac stopName sig t1 t2
  have h2 := kismetTrackBssid_recordAt db
    (kismetTrackBssid db reg mac stopName sig t1 t2) mac stopName sig t1 t2
  rw [h1] at h2
  constructor
  · simp only [recordAt, h1, h2, Option.getD_some, mergeKismet_stops_seen,
      Finset.insert_idem]
  · simp only [recordAt, h1, h2, Option.getD_some, tsAt_mergeKismet,
      List.length_append]
    have := List.length_pos.mpr (tsAppended_ne_nil t1 t2 h)
    omega

/-- Witness for C6 at a concrete sighting carrying a timestamp. -/
theorem merge_twice_witness :
    (recordAt (kismetTrackBssid (fun _ => none)
          (kismetTrackBssid (fun _ => none) [] "AA:BB:CC:DD:EE:99" "S" none
            (some ⟨20000, 0⟩) none) "AA:BB:CC:DD:EE:99" "S" none (some ⟨20000, 0⟩) none)
        (deviceKey "BSSID" "AA:BB:CC:DD:EE:99")).stops_seen
      = (recordAt (kismetTrackBssid (fun _ => none) [] "AA:BB:CC:DD:EE:99" "S" none
          (some ⟨20000, 0⟩) none) (deviceKey "BSSID" "AA:BB:CC:DD:EE:99")).stops_seen
    ∧ (tsAt (recordAt (kismetTrackBssid (fun _ => none) [] "AA:BB:CC:DD:EE:99" "S" none
          (some ⟨20000, 0⟩) none) (deviceKey "BSSID" "AA:BB:CC:DD:EE:99")) "S").length
      < (tsAt (recordAt (kismetTrackBssid (fun _ => none)
          (kismetTrackBssid (fun _ => none) [] "AA:BB:CC:DD:EE:99" "S" none
            (some ⟨20000, 0⟩) none) "AA:BB:CC:DD:EE:99" "S" none (some ⟨20000, 0⟩) none)
        (deviceKey "BSSID" "AA:BB:CC:DD:EE:99")) "S").length :=
  merge_twice_stops_idem_timestamps_grow (fun _ => none) [] "AA:BB:CC:DD:EE:99" "S"
    none (some ⟨20000, 0⟩) none (Or.inl (by decide))

/-- C10: a Kismet row whose signal value is exactly 0 fails Python's
`if signal:` truthiness test, so the merge leaves both `signal_by_stop`
and the scalar `signal_strength` of the device record unchanged. -/
theorem zero_signal_is_dropped (d : WirelessDevice) (stopName : String)
    (t1 t2 : Option Datetime) :
    (mergeKismet d stopName (some 0) t1 t2).signal_by_stop = d.signal_by_stop
      ∧ (mergeKismet d stopName (some 0) t1 t2).signal_strength = d.signal_strength := by
  unfold mergeKismet
  rw [mergeSignal_at_zero]
  constructor
  · rw [mergeSeenBounds_signal_by_stop, mergeTimestamps_signal_by_stop,
      mergeStops_signal_by_stop]
  · rw [mergeSeenBounds_signal_strength, mergeTimestamps_signal_strength,
      mergeStops_signal_strength]

/-- C5 (counterexample): a BSSID seen at two stops via Kismet rows that
carry NO timestamps at all still receives the +0.1 same-day term —
`analyze_kismet_database` creates an (empty) `timestamps_by_stop` entry
for every visited stop, so the `len(timestamps_by_stop) >= 2` guard
passes with zero recorded timestamps, contradicting the claim that the
term is 0 when no timestamps were ever recorded. -/
theorem same_day_term_counterexample :
    sameDayFactor (recordAt (kismetTrackBssid (fun _ => none)
        (kismetTrackBssid (fun _ => none) [] "AA:BB:CC:DD:EE:99" "A" none none none)
        "AA:BB:CC:DD:EE:99" "B" none none none)
        (deviceKey "BSSID" "AA:BB:CC:DD:EE:99")) = 0.1
      ∧ ((recordAt (kismetTrackBssid (fun _ => none)
          (kismetTrackBssid (fun _ => none) [] "AA:BB:CC:DD:EE:99" "A" none none none)
          "AA:BB:CC:DD:EE:99" "B" none none none)
          (deviceKey "BSSID" "AA:BB:CC:DD:EE:99")).timestamps_by_stop.all
            (fun p => p.2.isEmpty)) = true
      ∧ ¬ specSameDayCondition (recordAt (kismetTrackBssid (fun _ => none)
          (kismetTrackBssid (fun _ => none) [] "AA:BB:CC:DD:EE:99" "A" none none none)
          "AA:BB:CC:DD:EE:99" "B" none none none)
          (deviceKey "BSSID" "AA:BB:CC:DD:EE:99")) := by
  have hdev : recordAt (kismetTrackBssid (fun _ => none)
      (kismetTrackBssid (fun _ => none) [] "AA:BB:CC:DD:EE:99" "A" none none none)
      "AA:BB:CC:DD:EE:99" "B" none none none) (deviceKey "BSSID" "AA:BB:CC:DD:EE:99")
      = { identifier := "AA:BB:CC:DD:EE:99", identifier_type := "BSSID",
          manufacturer := "Unknown", stops_seen := {"B", "A"},
          timestamps_by_stop := [("A", []), ("B", [])] } := by decide
  rw [hdev]
  refine ⟨?_, by decide, by unfold specSameDayCondition; decide⟩
  unfold sameDayFactor
  rw [if_pos (by decide), if_pos (by decide)]

/-- C5 (amended): the same-day correlation term of the threat score is
+0.1 iff `timestamps_by_stop` holds entries (possibly EMPTY lists — one
is created for a stop even when no timestamp is recorded there) for at
least 2 stops, the derived calendar-date set has cardinality at most 2,
and at least 2 stops were seen; in every other case it is 0. -/
theorem same_day_term_amended (d : WirelessDevice) :
    (sameDayFactor d = 0.1
        ↔ 2 ≤ d.timestamps_by_stop.length
          ∧ (allDates d).card ≤ 2 ∧ 2 ≤ d.stops_seen.card)
      ∧ (sameDayFactor d = 0.1 ∨ sameDayFactor d = 0) := by
  unfold sameDayFactor
  split_ifs with h1 h2
  · exact ⟨⟨fun _ => ⟨h1, h2.1, h2.2⟩, fun _ => rfl⟩, Or.inl rfl⟩
  · exact ⟨⟨fun h => absurd h (by norm_num), fun h => absurd ⟨h.2.1, h.2.2⟩ h2⟩, Or.inr rfl⟩
  · exact ⟨⟨fun h => absurd h (by norm_num), fun h => absurd h.1 h1⟩, Or.inr rfl⟩

/-- C4 (counterexample): a BSSID record created through
`add_manual_observation` keeps the dataclass default `manufacturer = ""`
(no `manufacturer=` argument is passed at that creation site), even
though the vendor lookup for that address would return `"Unknown"` —
so not every BSSID record has its manufacturer resolved at creation. -/
theorem manufacturer_resolution_counterexample :
    (recordAt (add_manual_observation [{ name := "S", latitude := 0, longitude := 0 }]
        (AnalyzerState.mk [] [] [] []) "AA:BB:CC:DD:EE:01" "BSSID" "S").2.devices
        (deviceKey "BSSID" "AA:BB:CC:DD:EE:01")).manufacturer = ""
      ∧ lookup_manufacturer (fun _ => none) "AA:BB:CC:DD:EE:01" = "Unknown"
      ∧ ("" : String) ≠ "Unknown" := by
  refine ⟨by decide, ?_, by decide⟩
  unfold lookup_manufacturer
  rw [if_neg (by decide)]
  rfl

/-- C4 (amended): only the Kismet source resolves `manufacturer` at
creation via the vendor lookup (returning `"Unknown"` when the address
is shorter than 8 characters or its normalized OUI is not in the
table); BSSID records created by the log-file path (`logTrackMac`) or
by `add_manual_observation` keep the dataclass default `""`. -/
theorem manufacturer_resolution (db : String → Option String)
    (reg : List (String × WirelessDevice)) (mac stopName : String)
    (sig : Option Int) (t1 t2 : Option Datetime)
    (habs : dictFind reg (deviceKey "BSSID" mac) = none)
    (shortMac : String) (hshort : shortMac.length < 8)
    (missMac : String) (hmiss : ¬ missMac.length < 8)
    (hdb : db (oui_of missMac) = none)
    (st : AnalyzerState) (g : List Char × List Char)
    (habsL : dictFind st.devices (deviceKey "BSSID" (joinUpper g)) = none)
    (stops : List Stop) (stM : AnalyzerState) (macM stopM : String)
    (habsM : dictFind stM.devices (deviceKey "BSSID" macM) = none)
    (hstop : stopM ∈ stops.map (·.name)) :
    (recordAt (kismetTrackBssid db reg mac stopName sig t1 t2)
        (deviceKey "BSSID" mac)).manufacturer = lookup_manufacturer db mac
      ∧ lookup_manufacturer db shortMac = "Unknown"
      ∧ lookup_manufacturer db missMac = "Unknown"
      ∧ (recordAt (logTrackMac st stopName g).devices
          (deviceKey "BSSID" (joinUpper g))).manufacturer = ""
      ∧ (recordAt (add_manual_observation stops stM macM "BSSID" stopM).2.devices
          (deviceKey "BSSID" macM)).manufacturer = "" := by
  refine ⟨?_, ?_, ?_, ?_, ?_⟩
  · rw [recordAt, kismetTrackBssid_recordAt, habs]
    simp only [Option.getD_none, Option.getD_some, mergeKismet_manufacturer]
    rfl
  · unfold lookup_manufacturer
    rw [if_pos (Or.inr hshort)]
  · unfold lookup_manufacturer
    rw [if_neg ?hcond, hdb]
    · rfl
    case hcond =>
      rintro (h | h)
      · subst h
        exact hmiss (by decide)
      · exact hmiss h
  · unfold logTrackMac recordAt
    dsimp only
    rw [habsL]
    rw [if_pos (show (none : Option WirelessDevice).isNone = true from rfl)]
    dsimp only
    rw [dictFind_dictModify_self, dictFind_append_right _ _ _ habsL]
    rfl
  · unfold add_manual_observation
    rw [if_neg (fun hc => hc hstop), if_pos rfl]
    unfold add_manual_observation.go recordAt
    dsimp only
    rw [habsM]
    rw [if_pos (show (none : Option WirelessDevice).isNone = true from rfl)]
    dsimp only
    rw [dictFind_dictModify_self, dictFind_append_right _ _ _ habsM]
    rfl

/-- Witness for C4 at concrete inputs: one Kismet-created record, one
too-short address, one address with an unlisted OUI, one log-created
record, one manually created record. -/
theorem manufacturer_resolution_witness :
    (recordAt (kismetTrackBssid (fun _ => none) [] "AA:BB:CC:DD:EE:02" "S" none none none)
        (deviceKey "BSSID" "AA:BB:CC:DD:EE:02")).manufacturer
        = lookup_manufacturer (fun _ => none) "AA:BB:CC:DD:EE:02"
      ∧ lookup_manufacturer (fun _ => none) "AB" = "Unknown"
      ∧ lookup_manufacturer (fun _ => none) "AA:BB:CC:DD:EE:02" = "Unknown"
      ∧ (recordAt (logTrackMac (AnalyzerState.mk [] [] [] []) "S"
            (['e', 'e', ':'], ['f', 'f'])).devices
          (deviceKey "BSSID" (joinUpper (['e', 'e', ':'], ['f', 'f'])))).manufacturer = ""
      ∧ (recordAt (add_manual_observation [{ name := "S", latitude := 0, longitude := 0 }]
            (AnalyzerState.mk [] [] [] []) "AA:BB:CC:DD:EE:02" "BSSID" "S").2.devices
          (deviceKey "BSSID" "AA:BB:CC:DD:EE:02")).manufacturer = "" :=
  manufacturer_resolution (fun _ => none) [] "AA:BB:CC:DD:EE:02" "S" none none none
    (by decide) "AB" (by decide) "AA:BB:CC:DD:EE:02" (by decide) rfl
    (AnalyzerState.mk [] [] [] []) (['e', 'e', ':'], ['f', 'f']) (by decide)
    [{ name := "S", latitude := 0, longitude := 0 }]
    (AnalyzerState.mk [] [] [] []) "AA:BB:CC:DD:EE:02" "S" (by decide) (by decide)

/-- C8 (counterexample): a stop entry with latitude 200 (out of range)
is NOT skipped by `_parse_stop_config` — the `try` only catches
`KeyError`/`ValueError` from missing keys and failed `float()`
conversions; no coordinate-range check exists, so the out-of-range stop
is loaded verbatim. -/
theorem parse_stops_range_counterexample :
    parse_stops [⟨some "A", some (some 1), some (some 2), none⟩,
        ⟨some "B", some (some 200), some (some 10), none⟩,
        ⟨some "C", some (some 3), some (some 4), none⟩]
      = [{ name := "A", latitude := 1, longitude := 2 },
         { name := "B", latitude := 200, longitude := 10 },
         { name := "C", latitude := 3, longitude := 4 }]
      ∧ ¬ (({ name := "B", latitude := 200, longitude := 10 } : Stop).latitude ≤ 90) := by
  constructor
  · unfold parse_stops
    rw [if_neg (by simp)]
    unfold parseStopLoop
    simp [parseStopEntry, List.filterMap]
  · simp only [not_le]
    norm_num

/-- C8 (amended): entries that fail in a way the code catches — a
missing required field (`KeyError`) or a non-numeric coordinate
(`ValueError` from `float()`) — are skipped individually and the
remaining entries are still loaded; out-of-range numeric coordinates
are NOT among the skipped cases. -/
theorem parse_stops_skips_invalid (l1 l2 : List StopData) (bad : StopData)
    (hbad : bad.name = none ∨ bad.latitude = none ∨ bad.latitude = some none
      ∨ bad.longitude = none ∨ bad.longitude = some none)
    (hlen : (l1 ++ bad :: l2).length ≤ 5) :
    parse_stops (l1 ++ bad :: l2) = parseStopLoop l1 ++ parseStopLoop l2 := by
  have hb : parseStopEntry bad = none := by
    obtain ⟨n, la, lo, de⟩ := bad
    rcases n with _ | n <;> rcases la with _ | la <;> (try rcases la with _ | la) <;>
      rcases lo with _ | lo <;> (try rcases lo with _ | lo) <;>
      simp_all [parseStopEntry]
  unfold parse_stops
  rw [if_neg (by omega)]
  unfold parseStopLoop
  rw [List.filterMap_append, List.filterMap_cons_none hb]

/-- Witness for C8: an entry with a missing name between two valid
entries is dropped while both valid entries survive. -/
theorem parse_stops_skips_invalid_witness :
    parse_stops ([⟨some "A", some (some 1), some (some 2), none⟩]
        ++ (⟨none, some (some 1), some (some 2), none⟩ : StopData)
          :: [⟨some "C", some (some 3), some (some 4), none⟩])
      = parseStopLoop [⟨some "A", some (some 1), some (some 2), none⟩]
        ++ parseStopLoop [⟨some "C", some (some 3), some (some 4), none⟩] :=
  parse_stops_skips_invalid [⟨some "A", some (some 1), some (some 2), none⟩]
    [⟨some "C", some (some 3), some (some 4), none⟩]
    ⟨none, some (some 1), some (some 2), none⟩ (Or.inl rfl) (by simp)

/-! ### The stable descending sort of the result assembler -/

theorem keyLe_refl (a : ℚ × ℕ) : keyLe a a := Or.inr ⟨rfl, le_refl _⟩

theorem keyLe_total (a b : ℚ × ℕ) : keyLe a b ∨ keyLe b a := by
  rcases lt_trichotomy a.1 b.1 with h | h | h
  · exact Or.inl (Or.inl h)
  · rcases le_total a.2 b.2 with h2 | h2
    · exact Or.inl (Or.inr ⟨h, h2⟩)
    · exact Or.inr (Or.inr ⟨h.symm, h2⟩)
  · exact Or.inr (Or.inl h)

theorem keyLe_trans (a b c : ℚ × ℕ) (hab : keyLe a b) (hbc : keyLe b c) : keyLe a c := by
  rcases hab with h1 | ⟨h1, h1'⟩ <;> rcases hbc with h2 | ⟨h2, h2'⟩
  · exact Or.inl (lt_trans h1 h2)
  · exact Or.inl (h2 ▸ h1)
  · exact Or.inl (h1 ▸ h2)
  · exact Or.inr ⟨h1.trans h2, h1'.trans h2'⟩

theorem keyLe_of_eq (a b : ℚ × ℕ) (h : a = b) : keyLe a b := h ▸ keyLe_refl a

theorem insertDesc_pairwise (x : WirelessDevice) (l : List WirelessDevice)
    (h : l.Pairwise (fun a b => keyLe (sortKey b) (sortKey a))) :
    (insertDesc x l).Pairwise (fun a b => keyLe (sortKey b) (sortKey a)) := by
  induction l with
  | nil => simp [insertDesc]
  | cons y ys ih =>
    rw [List.pairwise_cons] at h
    unfold insertDesc
    split_ifs with hc
    · rw [List.pairwise_cons]
      refine ⟨?_, List.pairwise_cons.mpr h⟩
      intro z hz
      rcases List.mem_cons.mp hz with rfl | hz'
      · exact hc
      · exact keyLe_trans _ _ _ (h.1 z hz') hc
    · rw [List.pairwise_cons]
      constructor
      · intro z hz
        have hmem : z = x ∨ z ∈ ys := by
          clear ih h
          induction ys with
          | nil =>
            simp [insertDesc] at hz
            exact Or.inl hz
          | cons w ws ihw =>
            unfold insertDesc at hz
            split_ifs at hz with hw
            · rcases List.mem_cons.mp hz with rfl | hz' <;>
                [exact Or.inl rfl; exact Or.inr hz']
            · rcases List.mem_cons.mp hz with rfl | hz'
              · exact Or.inr (List.mem_cons_self _ _)
              · rcases ihw hz' with rfl | hm <;>
                  [exact Or.inl rfl; exact Or.inr (List.mem_cons_of_mem _ hm)]
        rcases hmem with rfl | hz'
        · rcases keyLe_total (sortKey z) (sortKey y) with ht | ht
          · exact ht
          · exact absurd ht hc
        · exact h.1 z hz'
      · exact ih h.2

theorem sortDesc_pairwise (l : List WirelessDevice) :
    (sortDesc l).Pairwise (fun a b => keyLe (sortKey b) (sortKey a)) := by
  induction l with
  | nil => simp [sortDesc]
  | cons x xs ih => exact insertDesc_pairwise x (sortDesc xs) ih

theorem filter_insertDesc (x : WirelessDevice) (l : List WirelessDevice) (v : ℚ × ℕ) :
    (insertDesc x l).filter (fun a => decide (sortKey a = v))
      = if sortKey x = v then x :: l.filter (fun a => decide (sortKey a = v))
        else l.filter (fun a => decide (sortKey a = v)) := by
  induction l with
  | nil =>
    unfold insertDesc
    simp only [List.filter_cons, List.filter_nil, decide_eq_true_eq]
  | cons y ys ih =>
    show (if keyLe (sortKey y) (sortKey x) then x :: y :: ys
        else y :: insertDesc x ys).filter (fun a => decide (sortKey a = v)) = _
    by_cases hc : keyLe (sortKey y) (sortKey x)
    · rw [if_pos hc]
      simp only [List.filter_cons, decide_eq_true_eq]
    · rw [if_neg hc]
      simp only [List.filter_cons, decide_eq_true_eq, ih]
      by_cases hy : sortKey y = v <;> by_cases hx : sortKey x = v
      · exact absurd (keyLe_of_eq _ _ (hy.trans hx.symm)) hc
      · simp [hy, hx]
      · simp [hy, hx]
      · simp [hy, hx]

theorem filter_sortDesc (l : List WirelessDevice) (v : ℚ × ℕ) :
    (sortDesc l).filter (fun a => decide (sortKey a = v))
      = l.filter (fun a => decide (sortKey a = v)) := by
  induction l with
  | nil => rfl
  | cons x xs ih =>
    show (insertDesc x (sortDesc xs)).filter _ = _
    rw [filter_insertDesc, ih]
    simp only [List.filter_cons, decide_eq_true_eq]

/-- C7: in the assembled result each of the three groups (bssids,
ssids, probes) is sorted in non-increasing lexicographic order of
`(threat_score, |stops_seen|)`, and for every key value the
equal-key subsequence is exactly the one of the pre-sort group built by
iterating the registry in insertion order — i.e. the sort is stable and
ties keep their registry insertion order. -/
theorem find_multi_stop_devices_sorted_stable (totalStops : ℕ)
    (common ignoredMacs ignoredSsids : List String) (minOcc : ℕ)
    (devices : List (String × WirelessDevice)) :
    ((find_multi_stop_devices totalStops common ignoredMacs ignoredSsids minOcc
          devices).1.Pairwise (fun a b => keyLe (sortKey b) (sortKey a))
      ∧ (find_multi_stop_devices totalStops common ignoredMacs ignoredSsids minOcc
          devices).2.1.Pairwise (fun a b => keyLe (sortKey b) (sortKey a))
      ∧ (find_multi_stop_devices totalStops common ignoredMacs ignoredSsids minOcc
          devices).2.2.Pairwise (fun a b => keyLe (sortKey b) (sortKey a)))
    ∧ ∀ v : ℚ × ℕ,
      (find_multi_stop_devices totalStops common ignoredMacs ignoredSsids minOcc
          devices).1.filter (fun a => decide (sortKey a = v))
        = (collectGroups totalStops common ignoredMacs ignoredSsids minOcc
            devices).1.filter (fun a => decide (sortKey a = v))
      ∧ (find_multi_stop_devices totalStops common ignoredMacs ignoredSsids minOcc
          devices).2.1.filter (fun a => decide (sortKey a = v))
        = (collectGroups totalStops common ignoredMacs ignoredSsids minOcc
            devices).2.1.filter (fun a => decide (sortKey a = v))
      ∧ (find_multi_stop_devices totalStops common ignoredMacs ignoredSsids minOcc
          devices).2.2.filter (fun a => decide (sortKey a = v))
        = (collectGroups totalStops common ignoredMacs ignoredSsids minOcc
            devices).2.2.filter (fun a => decide (sortKey a = v)) := by
  unfold find_multi_stop_devices
  exact ⟨⟨sortDesc_pairwise _, sortDesc_pairwise _, sortDesc_pairwise _⟩,
    fun v => ⟨filter_sortDesc _ v, filter_sortDesc _ v, filter_sortDesc _ v⟩⟩

/-! ### Geometry of nearest-stop resolution -/

theorem atan2_zero_one : atan2 0 1 = 0 := by
  unfold atan2
  rw [if_pos one_pos]
  simp [Real.arctan_zero]

theorem atan2_nonneg (y x : ℝ) (hy : 0 ≤ y) : 0 ≤ atan2 y x := by
  have hp := Real.pi_pos
  unfold atan2
  split_ifs with h1 h2 h3 h4 <;>
    first
      | (have hm := Real.arctan_strictMono.monotone (div_nonneg hy h1.le)
         rwa [Real.arctan_zero] at hm)
      | (have ha := Real.neg_pi_div_two_lt_arctan (y / x)
         linarith)

theorem haversine_self (lat lon : ℝ) : haversine_distance lat lon lat lon = 0 := by
  unfold haversine_distance
  simp only [sub_self, zero_div, Real.sin_zero, ne_eq, OfNat.ofNat_ne_zero,
    not_false_eq_true, zero_pow, mul_zero, add_zero, zero_add, Real.sqrt_zero,
    sub_zero, Real.sqrt_one, atan2_zero_one]

theorem haversine_nonneg (lat1 lon1 lat2 lon2 : ℝ) :
    0 ≤ haversine_distance lat1 lon1 lat2 lon2 := by
  unfold haversine_distance
  have h := atan2_nonneg
    (Real.sqrt (Real.sin ((radians lat2 - radians lat1) / 2) ^ 2
      + Real.cos (radians lat1) * Real.cos (radians lat2)
        * Real.sin ((radians lon2 - radians lon1) / 2) ^ 2))
    (Real.sqrt (1 - (Real.sin ((radians lat2 - radians lat1) / 2) ^ 2
      + Real.cos (radians lat1) * Real.cos (radians lat2)
        * Real.sin ((radians lon2 - radians lon1) / 2) ^ 2)))
    (Real.sqrt_nonneg _)
  positivity

theorem findNearestAux_append (lat lon radius : ℝ) (l1 l2 : List Stop)
    (best : Option (Stop × ℝ)) :
    findNearestAux lat lon radius (l1 ++ l2) best
      = findNearestAux lat lon radius l2 (findNearestAux lat lon radius l1 best) := by
  induction l1 generalizing best with
  | nil => rfl
  | cons s rest ih =>
    rw [List.cons_append]
    simp only [findNearestAux]
    split_ifs with h
    · exact ih _
    · exact ih _

theorem findNearestAux_zero_fixed (lat lon radius : ℝ) (l : List Stop) (s : Stop) :
    findNearestAux lat lon radius l (some (s, 0)) = some (s, 0) := by
  induction l with
  | nil => rfl
  | cons t rest ih =>
    simp only [findNearestAux]
    rw [if_neg]
    · exact ih
    · rintro ⟨-, hlt⟩
      simp only [betterThan] at hlt
      exact absurd hlt (not_lt.mpr (haversine_nonneg lat lon t.latitude t.longitude))

theorem findNearestAux_pos_inv (lat lon radius : ℝ) (l : List Stop)
    (best : Option (Stop × ℝ))
    (hl : ∀ t ∈ l, haversine_distance lat lon t.latitude t.longitude ≠ 0)
    (hbest : best = none ∨ ∃ p, best = some p ∧ 0 < p.2) :
    findNearestAux lat lon radius l best = none
      ∨ ∃ p, findNearestAux lat lon radius l best = some p ∧ 0 < p.2 := by
  induction l generalizing best with
  | nil => exact hbest
  | cons t rest ih =>
    simp only [findNearestAux]
    split_ifs with h
    · apply ih _ (fun u hu => hl u (List.mem_cons_of_mem _ hu))
      refine Or.inr ⟨(t, _), rfl, ?_⟩
      have hnn := haversine_nonneg lat lon t.latitude t.longitude
      have hne := hl t (List.mem_cons_self _ _)
      exact lt_of_le_of_ne hnn (Ne.symm hne)
    · exact ih _ (fun u hu => hl u (List.mem_cons_of_mem _ hu)) hbest

theorem exists_first_with {α : Type} (P : α → Prop) (l : List α)
    (h : ∃ x ∈ l, P x) :
    ∃ l1 x l2, l = l1 ++ x :: l2 ∧ P x ∧ ∀ y ∈ l1, ¬ P y := by
  induction l with
  | nil => simp at h
  | cons a rest ih =>
    by_cases ha : P a
    · exact ⟨[], a, rest, rfl, ha, by simp⟩
    · have hrest : ∃ x ∈ rest, P x := by
        obtain ⟨x, hx, hpx⟩ := h
        rcases List.mem_cons.mp hx with rfl | hx'
        · exact absurd hpx ha
        · exact ⟨x, hx', hpx⟩
      obtain ⟨l1, x, l2, rfl, hpx, hnone⟩ := ih hrest
      refine ⟨a :: l1, x, l2, rfl, hpx, ?_⟩
      intro y hy
      rcases List.mem_cons.mp hy with rfl | hy'
      · exact ha
      · exact hnone y hy'

/-- C9: with a nonnegative radius, a query point whose coordinates
exactly equal some configured stop's coordinates resolves to a stop at
haversine distance 0, and the returned stop is the FIRST stop in
configured order whose coordinates equal the query's — so when two or
more configured stops share those exact coordinates, the one occurring
first in configured order wins, because the running-minimum comparison
uses strict less-than.  The hypothesis `hfloat` records the
floating-point fact the program computes at such inputs: a stop whose
coordinates differ from the query's yields a nonzero distance (for
instance at latitude 90 the double `cos(radians(90))` is `6.12e-17`,
not 0, so the distance between different pole longitudes is about
`6.8e-11` m — small but positive, while coincident coordinates give
exactly `0.0`).  Exact-real trigonometry cannot derive that rounding
fact (it would make `cos (π/2)` exactly 0), so it is an assumption of
the theorem rather than a consequence of the model. -/
theorem find_nearest_stop_coincident (stops : List Stop) (lat lon radius : ℝ)
    (hr : 0 ≤ radius)
    (hfloat : ∀ t ∈ stops, ¬(t.latitude = lat ∧ t.longitude = lon) →
      haversine_distance lat lon t.latitude t.longitude ≠ 0)
    (hex : ∃ s ∈ stops, s.latitude = lat ∧ s.longitude = lon) :
    ∃ pre s post, stops = pre ++ s :: post
      ∧ s.latitude = lat ∧ s.longitude = lon
      ∧ (∀ t ∈ pre, ¬(t.latitude = lat ∧ t.longitude = lon))
      ∧ find_nearest_stop stops lat lon radius = some s
      ∧ haversine_distance lat lon s.latitude s.longitude = 0 := by
  obtain ⟨pre, s, post, hsplit, hPs, hpre⟩ :=
    exists_first_with (fun t => t.latitude = lat ∧ t.longitude = lon) stops hex
  obtain ⟨hsla, hslo⟩ := hPs
  have hs0 : haversine_distance lat lon s.latitude s.longitude = 0 := by
    rw [hsla, hslo]
    exact haversine_self lat lon
  have hpre' : ∀ t ∈ pre, haversine_distance lat lon t.latitude t.longitude ≠ 0 := by
    intro t ht
    refine hfloat t ?_ (hpre t ht)
    rw [hsplit]
    exact List.mem_append_left _ ht
  refine ⟨pre, s, post, hsplit, hsla, hslo, hpre, ?_, hs0⟩
  unfold find_nearest_stop
  rw [hsplit, findNearestAux_append]
  have hinv := findNearestAux_pos_inv lat lon radius pre none hpre' (Or.inl rfl)
  simp only [findNearestAux]
  rw [hs0]
  have hbet : betterThan 0 (findNearestAux lat lon radius pre none) := by
    rcases hinv with hn | ⟨p, hp, hpos⟩
    · rw [hn]
      simp [betterThan]
    · rw [hp]
      simpa [betterThan] using hpos
  rw [if_pos ⟨hr, hbet⟩]
  rw [findNearestAux_zero_fixed]
  rfl

/-- Witness for C9 at two coincident stops at the origin: the first in
configured order is returned, at distance 0. -/
theorem find_nearest_stop_coincident_witness :
    ∃ pre s post, ([{ name := "A", latitude := 0, longitude := 0 },
        { name := "B", latitude := 0, longitude := 0 }] : List Stop) = pre ++ s :: post
      ∧ s.latitude = 0 ∧ s.longitude = 0
      ∧ (∀ t ∈ pre, ¬(t.latitude = (0 : ℝ) ∧ t.longitude = (0 : ℝ)))
      ∧ find_nearest_stop [{ name := "A", latitude := 0, longitude := 0 },
          { name := "B", latitude := 0, longitude := 0 }] 0 0 100 = some s
      ∧ haversine_distance 0 0 s.latitude s.longitude = 0 :=
  find_nearest_stop_coincident
    [{ name := "A", latitude := 0, longitude := 0 },
     { name := "B", latitude := 0, longitude := 0 }] 0 0 100 (by norm_num)
    (by
      intro t ht hne
      rcases List.mem_cons.mp ht with rfl | ht'
      · exact absurd ⟨rfl, rfl⟩ hne
      · rcases List.mem_cons.mp ht' with rfl | ht''
        · exact absurd ⟨rfl, rfl⟩ hne
        · simp at ht'')
    ⟨{ name := "A", latitude := 0, longitude := 0 }, List.mem_cons_self _ _, rfl, rfl⟩

/-- C3 (code-bug evidence): processing the log line
`"GPS 10.0, 20.0 aa:bb:cc:dd:ee:ff"` with a stop configured exactly at
(10, 20) and radius 100 m does NOT create a DeviceRecord for the MAC
address `AA:BB:CC:DD:EE:FF` on the line; instead it creates one whose
identifier is the mangled string `"EE::FF"` — `re.findall` with capture
groups returns the groups (the LAST `hh[:-]` repetition and the final
byte pair), and `':'.join` of those is not the matched MAC.  The stop
IS recorded for the mangled identifier, so the claim's shape is right
except for the identifier value. -/
theorem log_line_mac_mangled :
    dictFind ((processLogLine [logStop] 100 (AnalyzerState.mk [] [] [] [])
          "GPS 10.0, 20.0 aa:bb:cc:dd:ee:ff".data).1).devices
        (deviceKey "BSSID" "AA:BB:CC:DD:EE:FF") = none
      ∧ (recordAt ((processLogLine [logStop] 100 (AnalyzerState.mk [] [] [] [])
            "GPS 10.0, 20.0 aa:bb:cc:dd:ee:ff".data).1).devices
          (deviceKey "BSSID" "EE::FF")).identifier = "EE::FF"
      ∧ (recordAt ((processLogLine [logStop] 100 (AnalyzerState.mk [] [] [] [])
            "GPS 10.0, 20.0 aa:bb:cc:dd:ee:ff".data).1).devices
          (deviceKey "BSSID" "EE::FF")).stops_seen = {"LogStop"}
      ∧ joinUpper (['e', 'e', ':'], ['f', 'f']) = "EE::FF" := by
  have hproc : (processLogLine [logStop] 100 (AnalyzerState.mk [] [] [] [])
        "GPS 10.0, 20.0 aa:bb:cc:dd:ee:ff".data)
      = (logTrackMac (AnalyzerState.mk [] [] [] []) "LogStop"
          (['e', 'e', ':'], ['f', 'f']), 1) := by
    have hkw : containsGpsKeyword "GPS 10.0, 20.0 aa:bb:cc:dd:ee:ff".data = true := by
      decide
    have hmacs : macFindall "GPS 10.0, 20.0 aa:bb:cc:dd:ee:ff".data
        = [(['e', 'e', ':'], ['f', 'f'])] := by decide
    have hcs : coordSearch "GPS 10.0, 20.0 aa:bb:cc:dd:ee:ff".data
        = some ((false, ['1', '0'], ['0']), (false, ['2', '0'], ['0'])) := by decide
    have h1 : digitsToNat ['1', '0'] = 10 := by decide
    have h2 : digitsToNat ['0'] = 0 := by decide
    have h3 : digitsToNat ['2', '0'] = 20 := by decide
    have hlat : numTokVal (false, ['1', '0'], ['0']) = 10 := by norm_num [numTokVal, h1, h2]
    have hlon : numTokVal (false, ['2', '0'], ['0']) = 20 := by norm_num [numTokVal, h3, h2]
    have hfind : find_nearest_stop [logStop] ((10 : ℚ) : ℝ) ((20 : ℚ) : ℝ) 100
        = some logStop := by
      have hc10 : ((10 : ℚ) : ℝ) = (10 : ℝ) := by norm_num
      have hc20 : ((20 : ℚ) : ℝ) = (20 : ℝ) := by norm_num
      unfold find_nearest_stop
      simp only [findNearestAux]
      rw [hc10, hc20]
      have hd : haversine_distance 10 20 logStop.latitude logStop.longitude = 0 :=
        haversine_self 10 20
      rw [hd, if_pos ⟨by norm_num, by simp [betterThan]⟩]
      rfl
    unfold processLogLine
    rw [hmacs, hkw, hcs]
    simp only [if_true, List.isEmpty_cons, Bool.false_eq_true, if_false, hlat, hlon]
    rw [if_pos (by norm_num)]
    rw [hfind]
    simp only [List.foldl]
    rfl
  rw [hproc]
  refine ⟨by decide, by decide, by decide, by decide⟩
